import Mathlib

/-!
Verification development for the `everything-admin` repository.

The development shallowly embeds the parts of the code that the verified
properties speak about:

* the JSON value model and a model of `JSON.parse` (JSON numbers are
  modelled as integers; every JSON value relevant to the properties below
  is integral),
* Node's lenient base64 / base64url decoder (`Buffer.from(s, "base64url")`),
  which skips characters outside the alphabet, and UTF-8 decoding with
  U+FFFD replacement (`buf.toString("utf-8")`),
* the JWT expiry utilities `getJwtExpiration`, `isTokenExpired`,
  `isExpirationExpired` (src/lib/utils/jwt.ts),
* the webhook schemas, dispatcher and route handler,
* the NextAuth `jwt`/`session` callbacks (src/auth.ts),
* the Base-API auth layer (`ensureBaseAuth`, `shouldRefreshBaseToken`,
  request-scoped token context) and the downstream services
  (`ssoGoogle`, `refreshToken`, `getTimeoffList` token acquisition),
* the environment validation of src/env.ts.

External effects (HTTP responses, the session returned by `auth()`, the
request-scoped store contents) are passed in as explicit arguments, and
functions that perform externally visible calls also return the list of
calls they made, so that call-sequence properties are expressible.
-/

namespace EA

/-- Model of a JavaScript JSON value. JSON numbers are restricted to
integers in this embedding (the code under verification only ever reads
the integral `exp` claim and integral status codes out of parsed JSON). -/
inductive Json where
  | null : Json
  | bool (b : Bool) : Json
  | num (n : Int) : Json
  | str (s : String) : Json
  | arr (elems : List Json) : Json
  | obj (fields : List (String × Json)) : Json
deriving Repr, BEq, Inhabited

/-- Property access `j.k` as used by the code on parsed JSON: defined (and
non-throwing) only on objects; on every other value the code paths in
question observe `undefined` (or a caught TypeError), modelled as `none`. -/
def Json.getField : Json → String → Option Json
  | .obj fields, key => fields.lookup key
  | _, _ => none

/-- True for JavaScript whitespace accepted by `JSON.parse`. -/
def isJsonWs (c : Char) : Bool :=
  c = ' ' || c = '\t' || c = '\n' || c = '\r'

/-- Drop leading JSON whitespace. -/
def skipWs : List Char → List Char
  | [] => []
  | c :: cs => if isJsonWs c then skipWs cs else c :: cs

/-- Value of a hexadecimal digit. -/
def hexVal (c : Char) : Option Nat :=
  if '0' ≤ c ∧ c ≤ '9' then some (c.toNat - '0'.toNat)
  else if 'a' ≤ c ∧ c ≤ 'f' then some (c.toNat - 'a'.toNat + 10)
  else if 'A' ≤ c ∧ c ≤ 'F' then some (c.toNat - 'A'.toNat + 10)
  else none

/-- Value of a decimal digit string (digits already checked). -/
def digitsToNat (ds : List Char) : Nat :=
  ds.foldl (fun acc c => acc * 10 + (c.toNat - '0'.toNat)) 0

/-- Insert a key into a JSON object under JavaScript duplicate-key
semantics: the later value wins, the key keeps its first position. -/
def insertField : List (String × Json) → String → Json → List (String × Json)
  | [], key, v => [(key, v)]
  | (k, w) :: rest, key, v =>
    if k = key then (key, v) :: rest else (k, w) :: insertField rest key v

/-- Collapse the member list of a parsed object into JavaScript object
shape by inserting members left to right (`insertField` keeps the first
position of a key and lets the later value win). -/
def normalizeFields (pairs : List (String × Json)) : List (String × Json) :=
  pairs.foldl (fun acc kv => insertField acc kv.1 kv.2) []

/-- Single-character string escapes of JSON. -/
def escChar (e : Char) : Option Char :=
  if e = '"' then some '"'
  else if e = '\\' then some '\\'
  else if e = '/' then some '/'
  else if e = 'b' then some (Char.ofNat 8)
  else if e = 'f' then some (Char.ofNat 12)
  else if e = 'n' then some '\n'
  else if e = 'r' then some '\r'
  else if e = 't' then some '\t'
  else none

/-- Parse a JSON integer numeral (sign already consumed). JSON forbids
leading zeros; fractional and exponent forms are outside this model and
make the parse fail. -/
def parseNum (cs : List Char) : Option (Nat × List Char) :=
  let ds := cs.takeWhile Char.isDigit
  let rest := cs.dropWhile Char.isDigit
  if ds.isEmpty then none
  else if ds.length > 1 ∧ ds.headD '0' = '0' then none
  else
    match rest with
    | '.' :: _ => none
    | 'e' :: _ => none
    | 'E' :: _ => none
    | _ => some (digitsToNat ds, rest)

mutual

/-- Parse one JSON value (fuelled recursive descent modelling
`JSON.parse`). Returns the value and the unconsumed input. -/
def parseVal (fuel : Nat) (cs : List Char) : Option (Json × List Char) :=
  match fuel with
  | 0 => none
  | fuel + 1 =>
    match skipWs cs with
    | 'n' :: 'u' :: 'l' :: 'l' :: rest => some (.null, rest)
    | 't' :: 'r' :: 'u' :: 'e' :: rest => some (.bool true, rest)
    | 'f' :: 'a' :: 'l' :: 's' :: 'e' :: rest => some (.bool false, rest)
    | '"' :: rest =>
      match parseStr fuel rest with
      | some (s, rest) => some (.str s, rest)
      | none => none
    | '[' :: rest =>
      (match skipWs rest with
       | ']' :: rest => some (.arr [], rest)
       | rest =>
         match parseElems fuel rest with
         | some (xs, rest) => some (.arr xs, rest)
         | none => none)
    | '{' :: rest =>
      (match skipWs rest with
       | '}' :: rest => some (.obj [], rest)
       | rest =>
         match parseMembers fuel rest with
         | some (fs, rest) => some (.obj (normalizeFields fs), rest)
         | none => none)
    | '-' :: rest =>
      (match parseNum rest with
       | some (n, rest) => some (.num (-(n : Int)), rest)
       | none => none)
    | c :: rest =>
      if c.isDigit then
        match parseNum (c :: rest) with
        | some (n, rest) => some (.num (n : Int), rest)
        | none => none
      else none
    | [] => none

/-- Parse the body of a JSON string literal (opening quote consumed). -/
def parseStr (fuel : Nat) (cs : List Char) : Option (String × List Char) :=
  match fuel with
  | 0 => none
  | fuel + 1 =>
    match cs with
    | [] => none
    | '"' :: rest => some ("", rest)
    | '\\' :: e :: rest =>
      (match escChar e with
       | some c =>
         match parseStr fuel rest with
         | some (s, rest) => some (⟨c :: s.data⟩, rest)
         | none => none
       | none =>
         if e = 'u' then
           match rest with
           | h1 :: h2 :: h3 :: h4 :: rest =>
             match hexVal h1, hexVal h2, hexVal h3, hexVal h4 with
             | some v1, some v2, some v3, some v4 =>
               let n := ((v1 * 16 + v2) * 16 + v3) * 16 + v4
               -- surrogate code units are out of scope for this model
               if 0xD800 ≤ n ∧ n ≤ 0xDFFF then none
               else
                 match parseStr fuel rest with
                 | some (s, rest) => some (⟨Char.ofNat n :: s.data⟩, rest)
                 | none => none
             | _, _, _, _ => none
           | _ => none
         else none)
    | c :: rest =>
      if c.toNat < 0x20 then none
      else
        match parseStr fuel rest with
        | some (s, rest) => some (⟨c :: s.data⟩, rest)
        | none => none

/-- Parse comma-separated array elements up to the closing bracket. -/
def parseElems (fuel : Nat) (cs : List Char) : Option (List Json × List Char) :=
  match fuel with
  | 0 => none
  | fuel + 1 =>
    match parseVal fuel cs with
    | none => none
    | some (v, rest) =>
      match skipWs rest with
      | ',' :: rest =>
        (match parseElems fuel rest with
         | some (xs, rest) => some (v :: xs, rest)
         | none => none)
      | ']' :: rest => some ([v], rest)
      | _ => none

/-- Parse comma-separated object members up to the closing brace. -/
def parseMembers (fuel : Nat) (cs : List Char) :
    Option (List (String × Json) × List Char) :=
  match fuel with
  | 0 => none
  | fuel + 1 =>
    match skipWs cs with
    | '"' :: rest =>
      (match parseStr fuel rest with
       | none => none
       | some (key, rest) =>
         match skipWs rest with
         | ':' :: rest =>
           (match parseVal fuel rest with
            | none => none
            | some (v, rest) =>
              match skipWs rest with
              | ',' :: rest =>
                (match parseMembers fuel rest with
                 | some (fs, rest) => some ((key, v) :: fs, rest)
                 | none => none)
              | '}' :: rest => some ([(key, v)], rest)
              | _ => none)
         | _ => none)
    | _ => none

end

/-- Model of `JSON.parse`: parse one value and require only trailing
whitespace after it; `none` models a thrown SyntaxError. -/
def jsonParse (s : String) : Option Json :=
  match parseVal (s.length + 1) s.data with
  | some (v, rest) => if (skipWs rest).isEmpty then some v else none
  | none => none


/-- Six-bit value of a base64 alphabet character. Node's decoder accepts
the standard and the URL-safe alphabet interchangeably. -/
def base64Val (c : Char) : Option Nat :=
  if 'A' ≤ c ∧ c ≤ 'Z' then some (c.toNat - 'A'.toNat)
  else if 'a' ≤ c ∧ c ≤ 'z' then some (c.toNat - 'a'.toNat + 26)
  else if '0' ≤ c ∧ c ≤ '9' then some (c.toNat - '0'.toNat + 52)
  else if c = '+' ∨ c = '-' then some 62
  else if c = '/' ∨ c = '_' then some 63
  else none

/-- Bit-level base64 decoding: `acc` holds `nbits` pending bits; a byte is
emitted whenever eight bits are available; characters outside the alphabet
(padding and whitespace included) are skipped, and trailing bits are
dropped, as in Node's lenient decoder. -/
def base64DecodeAux : List Char → Nat → Nat → List Nat
  | [], _, _ => []
  | c :: cs, acc, nbits =>
    match base64Val c with
    | none => base64DecodeAux cs acc nbits
    | some v =>
      let acc2 := acc * 64 + v
      let nbits2 := nbits + 6
      if 8 ≤ nbits2 then
        acc2 / 2 ^ (nbits2 - 8) :: base64DecodeAux cs (acc2 % 2 ^ (nbits2 - 8)) (nbits2 - 8)
      else
        base64DecodeAux cs acc2 nbits2

/-- Model of `Buffer.from(s, "base64url")` as a byte list. -/
def base64urlDecode (s : String) : List Nat :=
  base64DecodeAux s.data 0 0

/-- The U+FFFD replacement character. -/
def replChar : Char := Char.ofNat 0xFFFD

/-- True for UTF-8 continuation bytes. -/
def isCont (b : Nat) : Bool := 0x80 ≤ b ∧ b ≤ 0xBF

/-- UTF-8 decoding with U+FFFD replacement, modelling
`Buffer.prototype.toString("utf-8")`: ill-formed sequences produce a
replacement character and decoding resumes at the offending byte. The
fuel only serves structural recursion; one unit per input byte always
suffices because every step consumes at least one byte. -/
def utf8DecodeAux : Nat → List Nat → List Char
  | 0, _ => []
  | _, [] => []
  | fuel + 1, b :: bs =>
    if b < 0x80 then Char.ofNat b :: utf8DecodeAux fuel bs
    else if 0xC2 ≤ b ∧ b ≤ 0xDF then
      match bs with
      | [] => [replChar]
      | b1 :: bs1 =>
        if isCont b1 then
          Char.ofNat ((b - 0xC0) * 64 + (b1 - 0x80)) :: utf8DecodeAux fuel bs1
        else replChar :: utf8DecodeAux fuel (b1 :: bs1)
    else if 0xE0 ≤ b ∧ b ≤ 0xEF then
      match bs with
      | [] => [replChar]
      | b1 :: bs1 =>
        let lo1 := if b = 0xE0 then 0xA0 else 0x80
        let hi1 := if b = 0xED then 0x9F else 0xBF
        if lo1 ≤ b1 ∧ b1 ≤ hi1 then
          match bs1 with
          | [] => [replChar]
          | b2 :: bs2 =>
            if isCont b2 then
              Char.ofNat ((b - 0xE0) * 4096 + (b1 - 0x80) * 64 + (b2 - 0x80)) ::
                utf8DecodeAux fuel bs2
            else replChar :: utf8DecodeAux fuel (b2 :: bs2)
        else replChar :: utf8DecodeAux fuel (b1 :: bs1)
    else if 0xF0 ≤ b ∧ b ≤ 0xF4 then
      match bs with
      | [] => [replChar]
      | b1 :: bs1 =>
        let lo1 := if b = 0xF0 then 0x90 else 0x80
        let hi1 := if b = 0xF4 then 0x8F else 0xBF
        if lo1 ≤ b1 ∧ b1 ≤ hi1 then
          match bs1 with
          | [] => [replChar]
          | b2 :: bs2 =>
            if isCont b2 then
              match bs2 with
              | [] => [replChar]
              | b3 :: bs3 =>
                if isCont b3 then
                  Char.ofNat ((b - 0xF0) * 262144 + (b1 - 0x80) * 4096 +
                      (b2 - 0x80) * 64 + (b3 - 0x80)) :: utf8DecodeAux fuel bs3
                else replChar :: utf8DecodeAux fuel (b3 :: bs3)
            else replChar :: utf8DecodeAux fuel (b2 :: bs2)
        else replChar :: utf8DecodeAux fuel (b1 :: bs1)
    else replChar :: utf8DecodeAux fuel (b :: bs)

/-- UTF-8 decode a byte list with replacement. -/
def utf8Decode (bs : List Nat) : List Char :=
  utf8DecodeAux bs.length bs

/-- Byte list to string via UTF-8 with replacement. -/
def utf8ToString (bs : List Nat) : String := ⟨utf8Decode bs⟩

/-- Model of `Buffer.from(part, "base64url").toString("utf-8")`. -/
def decodeBase64Segment (s : String) : String :=
  utf8ToString (base64urlDecode s)

/-- Split on a single-character separator, modelling
`String.prototype.split` with a one-character separator string (the code
only ever splits on "." and "@"). -/
def splitOnCharAux (sep : Char) : List Char → List Char → List String
  | [], acc => [⟨acc.reverse⟩]
  | c :: cs, acc =>
    if c = sep then ⟨acc.reverse⟩ :: splitOnCharAux sep cs []
    else splitOnCharAux sep cs (c :: acc)

/-- Split a string on a single-character separator. -/
def splitOnChar (sep : Char) (s : String) : List String :=
  splitOnCharAux sep s.data []

/-- True when the first list occurs at the head of the second. -/
def leadsWith : List Char → List Char → Bool
  | [], _ => true
  | _ :: _, [] => false
  | a :: as, b :: bs => a = b ∧ leadsWith as bs

/-- True when the first list occurs anywhere inside the second
(`String.prototype.includes`). -/
def containsSeq (needle : List Char) : List Char → Bool
  | [] => needle.isEmpty
  | c :: rest => leadsWith needle (c :: rest) || containsSeq needle rest

/-- Core of `getJwtExpiration` acting on the dot-separated segments of the
token: requires exactly three segments with a non-empty middle one
(`parts.length !== 3 || !parts[1]`), decodes and parses the middle
segment, and reads the payload property `exp`, which must be a truthy
number (`payload.exp && typeof payload.exp === "number"`); the result is
`exp * 1000`; every failure (a thrown decode or parse error included)
yields `none`, modelling `null`. -/
def jwtExpirationOfParts (parts : List String) : Option Int :=
  match parts with
  | [_, p1, _] =>
    if p1 = "" then none
    else
      match jsonParse (decodeBase64Segment p1) with
      | none => none
      | some payload =>
        match payload.getField "exp" with
        | some (.num e) => if e = 0 then none else some (e * 1000)
        | _ => none
  | _ => none

/-- Model of `getJwtExpiration` (src/lib/utils/jwt.ts): split the token on
dots and read the expiry from the middle segment; milliseconds or `none`. -/
def getJwtExpiration (token : String) : Option Int :=
  jwtExpirationOfParts (splitOnChar '.' token)

/-- Five minutes in milliseconds, the refresh window of the code. -/
def fiveMinutesMs : Int := 5 * 60 * 1000

/-- Model of `isTokenExpired` (src/lib/utils/jwt.ts): true when the token
cannot be decoded (`!expiration` also catches a zero expiry) or when
`Date.now() >= expiration - fiveMinutes`; `now` stands for `Date.now()`. -/
def isTokenExpired (now : Int) (token : String) : Bool :=
  match getJwtExpiration token with
  | none => true
  | some e => if e = 0 then true else decide (now ≥ e - fiveMinutesMs)

/-- Model of `isExpirationExpired` (src/lib/utils/jwt.ts): true when the
timestamp is absent or zero (`!expiresAt`) or when
`Date.now() >= expiresAt - fiveMinutes`. -/
def isExpirationExpired (now : Int) (expiresAt : Option Int) : Bool :=
  match expiresAt with
  | none => true
  | some e => if e = 0 then true else decide (now ≥ e - fiveMinutesMs)

/-- Result shape `{success, message?, data?}` returned by webhook handlers
and the dispatcher (src/lib/webhook/dispatcher.ts). -/
structure HandlerResult where
  success : Bool
  message : Option String := none
  data : Option Json := none
deriving Repr, BEq

/-- The TypeScript type `BaseWebhookPayload` inferred from
`baseWebhookSchema` (src/lib/webhook/schemas.ts). -/
structure BaseWebhookPayload where
  messageType : String
deriving Repr, DecidableEq

/-- Runtime JSON value of a parsed base payload. Zod object schemas parse
in strip mode, so the parsed value carries exactly the declared key. -/
def BaseWebhookPayload.toJson (p : BaseWebhookPayload) : Json :=
  .obj [("messageType", .str p.messageType)]

/-- Model of `baseWebhookSchema.safeParse`: the input must be an object
whose `messageType` property is a string of length at least one; unknown
keys are stripped from the parsed value. -/
def baseWebhookSafeParse (j : Json) : Option BaseWebhookPayload :=
  match j with
  | .obj _ =>
    (match j.getField "messageType" with
     | some (.str s) => if 1 ≤ s.length then some ⟨s⟩ else none
     | _ => none)
  | _ => none

/-- Payload type of the example handler schema
(src/lib/webhook/handlers/example.ts). -/
structure ExamplePayloadData where
  id : String
  name : String
  timestamp : Option String := none
deriving Repr, DecidableEq

/-- Model of `z.string().optional()` on a possibly absent object property:
absent is accepted as `undefined`, a present value must be a string. -/
def zodOptionalString : Option Json → Option (Option String)
  | none => some none
  | some (.str s) => some (some s)
  | some _ => none

/-- Model of `examplePayloadSchema.safeParse`: `messageType` must be the
literal "example" and `data` an object with string `id` and `name` and an
optional string `timestamp`. -/
def examplePayloadSafeParse (j : Json) : Option ExamplePayloadData :=
  match j with
  | .obj _ =>
    (match j.getField "messageType", j.getField "data" with
     | some (.str mt), some d =>
       if mt = "example" then
         match d with
         | .obj _ =>
           (match d.getField "id", d.getField "name",
              zodOptionalString (d.getField "timestamp") with
            | some (.str idv), some (.str namev), some ts =>
              some ⟨idv, namev, ts⟩
            | _, _, _ => none)
         | _ => none
       else none
     | _, _ => none)
  | _ => none

/-- Abstract stand-in for the rendered text of a Zod validation error
(`result.error.message`); no verified property depends on this text. -/
def zodErrorText : String := "[zod validation error]"

/-- Model of `handleExample` (src/lib/webhook/handlers/example.ts):
validate the payload against the example schema and either report an
invalid payload or return the processed id and name. -/
def handleExample (payload : Json) : HandlerResult :=
  match examplePayloadSafeParse payload with
  | none => { success := false, message := some ("Invalid payload: " ++ zodErrorText) }
  | some p =>
    { success := true
      message := some "Example webhook processed successfully"
      data := some (.obj [("processedId", .str p.id), ("processedName", .str p.name)]) }

/-- The handler registry is a string-keyed map of handler functions. -/
abbrev HandlerRegistry := List (String × (Json → HandlerResult))

/-- Lookup in the handler registry (`handlers.get(messageType)`). -/
def lookupHandler : HandlerRegistry → String → Option (Json → HandlerResult)
  | [], _ => none
  | (k, h) :: rest, key => if k = key then some h else lookupHandler rest key

/-- Registry contents after `register-handlers` has run: exactly the
example handler is registered. -/
def registeredHandlers : HandlerRegistry := [("example", handleExample)]

/-- Model of `dispatchWebhook` (src/lib/webhook/dispatcher.ts): look the
`messageType` of the base-validated payload up in the registry; report a
typed failure when no handler is registered, otherwise invoke the handler
on the payload value. Handlers are pure in this model, so the try/catch
around the invocation has no throwing branch. -/
def dispatchWebhook (reg : HandlerRegistry) (payload : BaseWebhookPayload) :
    HandlerResult :=
  match lookupHandler reg payload.messageType with
  | none =>
    { success := false
      message := some ("No handler registered for messageType: " ++ payload.messageType) }
  | some handler => handler payload.toJson

/-- An HTTP response with a JSON body as produced by `NextResponse.json`. -/
structure HttpJsonResponse where
  status : Nat
  body : Json
deriving Repr, BEq

/-- Serialization of a handler result by `NextResponse.json`: absent
optional fields are omitted from the JSON body. -/
def HandlerResult.toJson (r : HandlerResult) : Json :=
  .obj ([("success", .bool r.success)] ++
    (match r.message with | some m => [("message", .str m)] | none => []) ++
    (match r.data with | some d => [("data", d)] | none => []))

/-- Model of `webhookResponseSchema.safeParse` on the dispatcher result:
an object whose `message`, when present, is a string; `data` may be
anything. -/
def webhookResponseOk (j : Json) : Bool :=
  match j with
  | .obj _ =>
    (match j.getField "message" with
     | none => true
     | some (.str _) => true
     | some _ => false)
  | _ => false

/-- Model of the `POST /api/webhook` route handler
(src/app/api/webhook/route.ts); `body` is the outcome of
`request.json()`, with `none` standing for a JSON syntax error. -/
def webhookPOST (reg : HandlerRegistry) (body : Option Json) : HttpJsonResponse :=
  match body with
  | none => ⟨400, .obj [("success", .bool false), ("message", .str "Invalid JSON payload")]⟩
  | some b =>
    match baseWebhookSafeParse b with
    | none =>
      ⟨400, .obj [("success", .bool false),
                  ("message", .str ("Invalid webhook payload: " ++ zodErrorText))]⟩
    | some payload =>
      let result := dispatchWebhook reg payload
      if webhookResponseOk result.toJson then
        ⟨if result.success then 200 else 400, result.toJson⟩
      else
        ⟨500, .obj [("success", .bool false),
                    ("message", .str "Internal error: Invalid handler response format")]⟩

/-- Truthiness of an optional string, modelling a JavaScript `!x` /
`if (x)` check on `string | undefined`. -/
def truthyStr : Option String → Bool
  | none => false
  | some s => s ≠ ""

/-- Truthiness of an optional number. -/
def truthyNum : Option Int → Bool
  | none => false
  | some n => n ≠ 0

/-- First operand if truthy, else the fallback (JavaScript `a || b`). -/
def orElseStr (v : Option String) (fallback : String) : String :=
  match v with
  | some s => if s = "" then fallback else s
  | none => fallback

/-- Token data carried by a successful SSO or refresh response
(the fields the callers read out of the schemas of
src/lib/schemas/auth/index.ts). -/
structure TokenData where
  access_token : Option String := none
  refresh_token : Option String := none
deriving Repr, DecidableEq

/-- Tagged result `{success, data?, error?, message?}` of the services
`ssoGoogle` and `refreshToken`. -/
structure ServiceResult where
  success : Bool
  data : Option TokenData := none
  error : Option String := none
  message : Option String := none
deriving Repr, DecidableEq

/-- An HTTP response as observed by the services: the status code, the
body parsed as JSON (`response.json()`) and the raw body text
(`response.text()`). -/
structure HttpResponse where
  status : Nat
  bodyJson : Json := .null
  bodyText : String := ""
deriving Repr

/-- Model of `Response.ok`: the status is in the 2xx range. -/
def respOk (r : HttpResponse) : Bool :=
  200 ≤ r.status ∧ r.status ≤ 299

/-- Outcome of one `fetch` attempt: a response, or a thrown error
(network failure, timeout). -/
inductive FetchOutcome where
  | ok (resp : HttpResponse)
  | err (msg : String)

/-- Conservative model of the Zod email format check of
`ssoGoogleOptionsSchema`: one "@" separating two non-empty halves. No
verified property depends on the exact accepted language. -/
def zodEmailAccepts (s : String) : Bool :=
  match splitOnChar '@' s with
  | [lpart, dpart] => lpart ≠ "" ∧ dpart ≠ ""
  | _ => false

/-- Options of `ssoGoogle`. -/
structure SsoGoogleOptions where
  email : String
  accessToken : String
  cookie : Option String := none
deriving Repr, DecidableEq

/-- Model of `ssoGoogleOptionsSchema.safeParse` succeeding. -/
def ssoGoogleOptionsValid (o : SsoGoogleOptions) : Bool :=
  zodEmailAccepts o.email ∧ 1 ≤ o.accessToken.length

/-- A present property of a Zod passthrough object must be a string. -/
def zodOptionalStrOk : Option Json → Bool
  | none => true
  | some (.str _) => true
  | some _ => false

/-- A present property of a Zod passthrough object must be a number. -/
def zodOptionalNumOk : Option Json → Bool
  | none => true
  | some (.num _) => true
  | some _ => false

/-- Model of the optional `user` object of `ssoGoogleDataSchema`. -/
def ssoUserOk : Option Json → Bool
  | none => true
  | some u =>
    match u with
    | .obj _ =>
      zodOptionalStrOk (u.getField "id") ∧ zodOptionalStrOk (u.getField "email") ∧
      zodOptionalStrOk (u.getField "name") ∧ zodOptionalStrOk (u.getField "image")
    | _ => false

/-- Model of `ssoGoogleDataSchema.safeParse` succeeding: a passthrough
object whose listed properties, where present, have the declared types
(`data` itself is `z.unknown().nullable().optional()`). -/
def ssoGoogleDataAccepts (j : Json) : Bool :=
  match j with
  | .obj _ =>
    zodOptionalNumOk (j.getField "code") ∧ zodOptionalStrOk (j.getField "message") ∧
    zodOptionalStrOk (j.getField "httpCode") ∧
    zodOptionalStrOk (j.getField "access_token") ∧
    zodOptionalStrOk (j.getField "refresh_token") ∧
    ssoUserOk (j.getField "user")
  | _ => false

/-- Read an optional string-valued property out of parsed JSON. -/
def jsonStrField (j : Json) (key : String) : Option String :=
  match j.getField key with
  | some (.str s) => some s
  | _ => none

/-- Display form of `data.code` in the fallback error text. -/
def displayCode (j : Json) : String :=
  match j.getField "code" with
  | some (.num n) => toString n
  | some (.bool b) => toString b
  | some (.str s) => s
  | some .null => "null"
  | _ => "undefined"

/-- Model of `ssoGoogle` (src/lib/services/auth/ssoGoogle.ts): validate
the options, require `process.env.BASE_DOMAIN` (read at call time),
perform the form-encoded POST (abstracted into `fetch`), reject non-2xx
responses, require `code === 1`, validate the response shape, and require
truthy `access_token` and `refresh_token`; any thrown error is caught
into a failure result. -/
def ssoGoogle (envBaseDomain : Option String) (options : SsoGoogleOptions)
    (fetch : FetchOutcome) : ServiceResult :=
  if ¬ ssoGoogleOptionsValid options then
    { success := false, error := some ("Invalid options: " ++ zodErrorText) }
  else if ¬ truthyStr envBaseDomain then
    { success := false, error := some "BASE_DOMAIN environment variable is not set" }
  else
    match fetch with
    | .err msg => { success := false, error := some msg }
    | .ok resp =>
      if ¬ respOk resp then
        { success := false
          error := some ("HTTP " ++ toString resp.status ++ ": " ++ resp.bodyText)
          message := some resp.bodyText }
      else
        let data := resp.bodyJson
        let codeIsOne : Bool := match data.getField "code" with
          | some (.num n) => decide (n = 1)
          | _ => false
        if ¬ codeIsOne then
          { success := false
            error := some (orElseStr (jsonStrField data "message")
              ("Base API error: code " ++ displayCode data))
            message := jsonStrField data "message" }
        else if ¬ ssoGoogleDataAccepts data then
          { success := false
            error := some ("Invalid response data: " ++ zodErrorText)
            message := some "Response data validation failed" }
        else
          let accessToken := jsonStrField data "access_token"
          let refreshToken := jsonStrField data "refresh_token"
          if ¬ (truthyStr accessToken ∧ truthyStr refreshToken) then
            { success := false
              error := some "Missing access_token or refresh_token in response"
              message := some "Response data validation failed" }
          else
            { success := true
              data := some { access_token := accessToken, refresh_token := refreshToken } }

/-- Options of `refreshToken`. -/
structure RefreshTokenOptions where
  refreshToken : Option String := none
  cookie : Option String := none
deriving Repr, DecidableEq

/-- Model of `refreshTokenOptionsSchema.safeParse` succeeding: a present
refresh token must be non-empty. -/
def refreshTokenOptionsValid (o : RefreshTokenOptions) : Bool :=
  match o.refreshToken with
  | none => true
  | some s => 1 ≤ s.length

/-- Model of `refreshTokenDataSchema.safeParse` succeeding. -/
def refreshTokenDataAccepts (j : Json) : Bool :=
  match j with
  | .obj _ =>
    zodOptionalStrOk (j.getField "access_token") ∧
    zodOptionalStrOk (j.getField "refresh_token") ∧
    zodOptionalNumOk (j.getField "expires_in")
  | _ => false

/-- Model of `refreshToken` (src/lib/services/auth/refreshToken.ts):
validate the options, require a truthy refresh token, perform the
form-encoded POST, reject non-2xx responses, and validate the response
shape; any thrown error is caught into a failure result. -/
def refreshToken (options : Option RefreshTokenOptions) (fetch : FetchOutcome) :
    ServiceResult :=
  let optionsInvalid : Bool := match options with
    | some o => ! refreshTokenOptionsValid o
    | none => false
  if optionsInvalid then
    { success := false, error := some ("Invalid options: " ++ zodErrorText) }
  else
    let refreshTokenValue := match options with
      | some o => o.refreshToken
      | none => none
    if ¬ truthyStr refreshTokenValue then
      { success := false, error := some "Refresh token is not provided" }
    else
      match fetch with
      | .err msg => { success := false, error := some msg }
      | .ok resp =>
        if ¬ respOk resp then
          { success := false
            error := some ("HTTP " ++ toString resp.status ++ ": " ++ resp.bodyText)
            message := some resp.bodyText }
        else
          let data := resp.bodyJson
          if ¬ refreshTokenDataAccepts data then
            { success := false
              error := some ("Invalid response data: " ++ zodErrorText)
              message := some "Response data validation failed" }
          else
            { success := true
              data := some { access_token := jsonStrField data "access_token"
                             refresh_token := jsonStrField data "refresh_token" } }

/-- Essence of `FetchClient.request` (src/lib/fetch-client/index.ts): for
a non-2xx response `handleErrorResponse` throws a `FetchError` which
`handleRequestError` re-throws, so the call never resolves normally for
such a response. -/
def fetchClientRequest (fetch : FetchOutcome) : Except String HttpResponse :=
  match fetch with
  | .err msg => .error msg
  | .ok resp =>
    if respOk resp then .ok resp
    else .error ("Request failed: " ++ toString resp.status)

/-- The NextAuth JWT token record as manipulated by the `jwt` callback of
src/auth.ts. -/
structure AuthToken where
  id : Option String := none
  email : Option String := none
  name : Option String := none
  image : Option String := none
  googleAccessToken : Option String := none
  googleRefreshToken : Option String := none
  baseAccessToken : Option String := none
  baseRefreshToken : Option String := none
  baseExpiresAt : Option Int := none
deriving Repr, DecidableEq

/-- Provider data available at initial sign-in: the fields of the `user`
and `account` objects that the `jwt` callback reads. -/
structure SignInData where
  userId : Option String := none
  userEmail : Option String := none
  userName : Option String := none
  userImage : Option String := none
  accountAccessToken : Option String := none
  accountRefreshToken : Option String := none
deriving Repr, DecidableEq

/-- Update of the token by a successful token response: set the Base
access token when one is present (decoding its expiry when truthy) and
the refresh token when one is present, mirroring the assignment blocks of
the `jwt` callback. -/
def applyTokenData (token : AuthToken) (d : TokenData) : AuthToken :=
  let token :=
    if truthyStr d.access_token then
      let token := { token with baseAccessToken := d.access_token }
      match getJwtExpiration (d.access_token.getD "") with
      | some e => if e = 0 then token else { token with baseExpiresAt := some e }
      | none => token
    else token
  if truthyStr d.refresh_token then { token with baseRefreshToken := d.refresh_token }
  else token

/-- Token with the Base credential fields deleted (the refresh-failure
cleanup of the `jwt` callback). -/
def clearBaseFields (token : AuthToken) : AuthToken :=
  { token with baseAccessToken := none, baseRefreshToken := none, baseExpiresAt := none }

/-- Model of the `jwt` callback of src/auth.ts. `signIn` is `some`
exactly when `account && user` is truthy (initial sign-in); `ssoCall` and
`refreshCall` are the outcomes of the awaited `ssoGoogle` / `refreshToken`
calls, `Except.error` standing for a thrown error; `now` is `Date.now()`.
The `throw` raised when the SSO exchange reports failure is caught by the
enclosing `catch`, which only logs — in both failure shapes the callback
returns the token unchanged rather than aborting session creation. -/
def jwtCallback (now : Int) (token : AuthToken) (signIn : Option SignInData)
    (ssoCall : Except String ServiceResult)
    (refreshCall : Except String ServiceResult) : AuthToken :=
  let token :=
    match signIn with
    | none => token
    | some s =>
      let token := { token with
        id := s.userId, email := s.userEmail, name := s.userName, image := s.userImage,
        googleAccessToken := s.accountAccessToken,
        googleRefreshToken := s.accountRefreshToken }
      if truthyStr s.userEmail ∧ truthyStr s.accountAccessToken then
        match ssoCall with
        | .error _ => token
        | .ok r =>
          if r.success ∧ r.data.isSome then
            applyTokenData token (r.data.getD {})
          else token
      else token
  if truthyStr token.baseAccessToken ∧ truthyStr token.baseRefreshToken then
    let shouldRefresh :=
      isTokenExpired now (token.baseAccessToken.getD "") ∨
      (truthyNum token.baseExpiresAt ∧ isExpirationExpired now token.baseExpiresAt)
    if shouldRefresh then
      match refreshCall with
      | .error _ => clearBaseFields token
      | .ok r =>
        if r.success ∧ r.data.isSome then
          applyTokenData token (r.data.getD {})
        else clearBaseFields token
    else token
  else token

/-- The user object carried by a NextAuth session. -/
structure SessionUser where
  id : Option String := none
  email : Option String := none
  name : Option String := none
  image : Option String := none
deriving Repr, DecidableEq

/-- The NextAuth session exposed to the application by src/auth.ts. -/
structure Session where
  user : Option SessionUser := none
  baseAccessToken : Option String := none
  baseRefreshToken : Option String := none
  baseExpiresAt : Option Int := none
deriving Repr, DecidableEq

/-- Model of the `session` callback of src/auth.ts: copy the user fields
and the truthy Base credential fields from the JWT onto the session. -/
def sessionCallback (token : AuthToken) (session : Session) : Session :=
  let session :=
    match session.user with
    | some _ =>
      { session with user := some ⟨token.id, token.email, token.name, token.image⟩ }
    | none => session
  let session :=
    if truthyStr token.baseAccessToken then
      { session with baseAccessToken := token.baseAccessToken }
    else session
  let session :=
    if truthyStr token.baseRefreshToken then
      { session with baseRefreshToken := token.baseRefreshToken }
    else session
  if truthyNum token.baseExpiresAt then
    { session with baseExpiresAt := token.baseExpiresAt }
  else session

/-- The token record held in the request-scoped AsyncLocalStorage context
(src/lib/base-auth/context.ts). -/
structure BaseTokens where
  accessToken : Option String := none
  refreshToken : Option String := none
  expiresAt : Option Int := none
deriving Repr, DecidableEq

/-- Result record of `authenticateWithBase` / `refreshBaseToken`
(src/lib/base-auth/auth.ts). -/
structure BaseAuthResult where
  success : Bool
  accessToken : Option String := none
  refreshToken : Option String := none
  expiresAt : Option Int := none
  error : Option String := none
deriving Repr, DecidableEq

/-- Normalization shared by `authenticateWithBase` and `refreshBaseToken`:
on a successful service result extract the tokens, decode the expiry from
the access token when truthy (`expiresAt || undefined` drops a falsy
expiry); on failure or a thrown error produce a failure record. -/
def baseAuthResultOfService (call : Except String ServiceResult)
    (fallbackError : String) : BaseAuthResult :=
  match call with
  | .error msg => { success := false, error := some msg }
  | .ok r =>
    if r.success ∧ r.data.isSome then
      let d := r.data.getD {}
      let expiresAt :=
        if truthyStr d.access_token then getJwtExpiration (d.access_token.getD "")
        else none
      { success := true
        accessToken := d.access_token
        refreshToken := d.refresh_token
        expiresAt := match expiresAt with
          | some e => if e = 0 then none else some e
          | none => none }
    else { success := false, error := some (orElseStr r.error fallbackError) }

/-- Model of `authenticateWithBase` (src/lib/base-auth/auth.ts). -/
def authenticateWithBase (ssoCall : Except String ServiceResult) : BaseAuthResult :=
  baseAuthResultOfService ssoCall "Base API authentication failed"

/-- Model of `refreshBaseToken` (src/lib/base-auth/auth.ts). -/
def refreshBaseToken (refreshCall : Except String ServiceResult) : BaseAuthResult :=
  baseAuthResultOfService refreshCall "Failed to refresh Base API token"

/-- Model of `shouldRefreshBaseToken` (src/lib/base-auth/auth.ts): a falsy
access token reports no refresh needed; otherwise the token is checked
via `isTokenExpired`, and a supplied timestamp via `isExpirationExpired`. -/
def shouldRefreshBaseToken (now : Int) (accessToken : Option String)
    (expiresAt : Option Int) : Bool :=
  if ¬ truthyStr accessToken then false
  else
    isTokenExpired now (accessToken.getD "") ∨
    (expiresAt.isSome ∧ isExpirationExpired now expiresAt)

/-- The part of the session that `ensureBaseAuth` reads. -/
structure EnsureSessionView where
  userEmail : Option String := none
  googleAccessToken : Option String := none
deriving Repr, DecidableEq

/-- A downstream call `ensureBaseAuth` can make. -/
inductive BaseCall where
  | refresh
  | exchange
deriving Repr, DecidableEq

/-- Outcome of `ensureBaseAuth`: a redirect thrown by `next/navigation`,
or a returned access token. -/
inductive EnsureOutcome where
  | redirect (url : String)
  | token (accessToken : String)
deriving Repr, DecidableEq

/-- One run of `ensureBaseAuth`: its outcome, the request context after
the run, and the downstream calls made, in order. -/
structure EnsureRun where
  outcome : EnsureOutcome
  ctx : Option BaseTokens
  calls : List BaseCall
deriving Repr, DecidableEq

/-- Model of `ensureBaseAuth` (src/lib/base-auth/ensure.ts). `session` is
the awaited `auth()` result, `ctx` the current AsyncLocalStorage
contents, and `refreshResult` / `authResult` the outcomes
`refreshBaseToken` / `authenticateWithBase` would produce if called; the
calls actually made are recorded in the run. -/
def ensureBaseAuth (now : Int) (session : Option EnsureSessionView)
    (ctx : Option BaseTokens) (refreshResult authResult : BaseAuthResult) :
    EnsureRun :=
  match session with
  | none => ⟨.redirect "/sign-in", ctx, []⟩
  | some s =>
    if ¬ truthyStr s.userEmail then ⟨.redirect "/sign-in", ctx, []⟩
    else if ¬ truthyStr s.googleAccessToken then
      ⟨.redirect "/sign-in?error=missing_google_token", ctx, []⟩
    else
      let fresh : List BaseCall → EnsureRun := fun calls =>
        if ¬ (authResult.success ∧ truthyStr authResult.accessToken) then
          ⟨.redirect "/sign-in?error=base_access_denied", ctx, calls ++ [.exchange]⟩
        else
          ⟨.token (authResult.accessToken.getD ""),
           some ⟨authResult.accessToken, authResult.refreshToken, authResult.expiresAt⟩,
           calls ++ [.exchange]⟩
      match ctx with
      | some existing =>
        if truthyStr existing.accessToken ∧ truthyStr existing.refreshToken then
          if shouldRefreshBaseToken now existing.accessToken existing.expiresAt then
            if refreshResult.success ∧ truthyStr refreshResult.accessToken then
              ⟨.token (refreshResult.accessToken.getD ""),
               some ⟨refreshResult.accessToken, refreshResult.refreshToken,
                     refreshResult.expiresAt⟩,
               [.refresh]⟩
            else fresh [.refresh]
          else ⟨.token (existing.accessToken.getD ""), ctx, []⟩
        else fresh []
      | none => fresh []

/-- Outcome of `getBaseAccessTokenFromContext`: a propagated redirect, or
a value (`none` modelling `undefined`). -/
inductive GetTokenOutcome where
  | redirect (url : String)
  | value (accessToken : Option String)
deriving Repr, DecidableEq

/-- One run of `getBaseAccessTokenFromContext`. -/
structure GetTokenRun where
  outcome : GetTokenOutcome
  ctx : Option BaseTokens
  calls : List BaseCall
deriving Repr, DecidableEq

/-- Model of `getBaseAccessTokenFromContext`
(src/lib/base-auth/ensure.ts): a truthy access token in the request
context is returned as-is without any freshness check; only a missing
token triggers `ensureBaseAuth`, whose redirect is re-thrown. -/
def getBaseAccessTokenFromContext (now : Int)
    (session : Option EnsureSessionView) (ctx : Option BaseTokens)
    (refreshResult authResult : BaseAuthResult) : GetTokenRun :=
  let viaEnsure : GetTokenRun :=
    let run := ensureBaseAuth now session ctx refreshResult authResult
    match run.outcome with
    | .redirect u => ⟨.redirect u, run.ctx, run.calls⟩
    | .token t => ⟨.value (some t), run.ctx, run.calls⟩
  match ctx with
  | some t => if truthyStr t.accessToken then ⟨.value t.accessToken, some t, []⟩ else viaEnsure
  | none => viaEnsure

/-- How far `getTimeoffList` gets with credential acquisition. -/
inductive TimeoffAuthStep where
  | missingToken
  | requestWith (bearer : String)
deriving Repr, DecidableEq

/-- Model of the credential-acquisition prefix of `getTimeoffList`
(src/lib/services/timeoff/getTimeoffList.ts): an options-supplied token
takes precedence (`options?.accessToken || sessionAccessToken`);
otherwise the context token is used, with every failure of the context
lookup — a thrown redirect included — caught and treated as no token;
without a truthy token the call fails with
"Access token is not provided", with one the list request is made with
that bearer credential. -/
def getTimeoffListAuthStep (now : Int) (optionsAccessToken : Option String)
    (session : Option EnsureSessionView) (ctx : Option BaseTokens)
    (refreshResult authResult : BaseAuthResult) : TimeoffAuthStep :=
  let run := getBaseAccessTokenFromContext now session ctx refreshResult authResult
  let sessionAccessToken := match run.outcome with
    | .redirect _ => none
    | .value v => v
  let accessTokenValue :=
    if truthyStr optionsAccessToken then optionsAccessToken else sessionAccessToken
  match accessTokenValue with
  | none => .missingToken
  | some t => if t = "" then .missingToken else .requestWith t

/-- The raw process environment fields read by src/env.ts and by
`ssoGoogle`. -/
structure ProcessEnv where
  GOOGLE_CLIENT_ID : Option String := none
  GOOGLE_CLIENT_SECRET : Option String := none
  AUTH_SECRET : Option String := none
  BASE_DOMAIN : Option String := none
  BASE_ID : Option String := none
  NEXT_PUBLIC_APP_URL : Option String := none
  SKIP_ENV_VALIDATION : Option String := none
deriving Repr, DecidableEq

/-- The `emptyStringAsUndefined` normalization of t3-env. -/
def normEnvVal : Option String → Option String
  | some "" => none
  | v => v

/-- Conservative model of `z.string().url()`: non-empty with a scheme
separator. The verified properties depend only on absent and empty values
being rejected. -/
def zodUrlAccepts (s : String) : Bool :=
  s ≠ "" ∧ containsSeq "://".data s.data

/-- Model of the `createEnv` call of src/env.ts, run at module load:
unless `SKIP_ENV_VALIDATION` is truthy, every required server variable —
after empty strings are normalized to undefined — must be present, with
`BASE_DOMAIN` (and a present `NEXT_PUBLIC_APP_URL`) a well-formed URL;
a violation throws, aborting startup. -/
def validateEnv (p : ProcessEnv) : Except String ProcessEnv :=
  if truthyStr p.SKIP_ENV_VALIDATION then .ok p
  else
    match normEnvVal p.GOOGLE_CLIENT_ID, normEnvVal p.GOOGLE_CLIENT_SECRET,
      normEnvVal p.AUTH_SECRET, normEnvVal p.BASE_DOMAIN with
    | some cid, some csec, some asec, some dom =>
      let appUrlOk : Bool := match normEnvVal p.NEXT_PUBLIC_APP_URL with
        | none => true
        | some u => zodUrlAccepts u
      if 1 ≤ cid.length ∧ 1 ≤ csec.length ∧ 1 ≤ asec.length ∧
          zodUrlAccepts dom ∧ appUrlOk then
        .ok { p with
          GOOGLE_CLIENT_ID := some cid, GOOGLE_CLIENT_SECRET := some csec,
          AUTH_SECRET := some asec, BASE_DOMAIN := some dom,
          BASE_ID := normEnvVal p.BASE_ID,
          NEXT_PUBLIC_APP_URL := normEnvVal p.NEXT_PUBLIC_APP_URL }
      else .error "Invalid environment variables"
    | _, _, _, _ => .error "Invalid environment variables"

/-- The body of the documented end-to-end webhook scenario. -/
def exampleWebhookBody : Json :=
  .obj [("messageType", .str "example"),
        ("data", .obj [("id", .str "123"), ("name", .str "Test")])]

/-- C1: the documented end-to-end scenario fails on the code. Base
validation parses in Zod strip mode and drops the `data` field, the route
dispatches the stripped payload, the example handler therefore rejects
it, and the route answers HTTP 400 with a failure body instead of the
specified 200 success with the processed data. -/
theorem c1_example_webhook_rejected :
    baseWebhookSafeParse exampleWebhookBody = some ⟨"example"⟩ ∧
    (BaseWebhookPayload.toJson ⟨"example"⟩).getField "data" = none ∧
    webhookPOST registeredHandlers (some exampleWebhookBody) =
      ⟨400, .obj [("success", .bool false),
                  ("message", .str ("Invalid payload: " ++ zodErrorText))]⟩ :=
  ⟨rfl, rfl, rfl⟩

/-- C2: evidence against the claim on the code: at an initial sign-in
whose SSO exchange reports failure, the `throw` meant to prevent session
creation is swallowed by the enclosing catch, the jwt callback returns a
token carrying the user identity but no Base credential, and the session
callback then exposes a signed-in session without downstream
credentials. -/
theorem c2_sso_failure_still_creates_session :
    jwtCallback 0 {}
        (some { userEmail := some "user@example.com",
                accountAccessToken := some "google-token" })
        (.ok { success := false, error := some "HTTP 403: access denied" })
        (.ok { success := false }) =
      { email := some "user@example.com",
        googleAccessToken := some "google-token" } ∧
    sessionCallback
        (jwtCallback 0 {}
          (some { userEmail := some "user@example.com",
                  accountAccessToken := some "google-token" })
          (.ok { success := false, error := some "HTTP 403: access denied" })
          (.ok { success := false }))
        { user := some {} } =
      { user := some { email := some "user@example.com" } } := by
  decide

/-- C10: a missing or empty access token makes `shouldRefreshBaseToken`
report false — "no refresh needed" — for every supplied timestamp, in
contrast with the fail-safe treatment of undecodable token strings. -/
theorem c10_falsy_token_no_refresh (now : Int) (expiresAt : Option Int) :
    shouldRefreshBaseToken now none expiresAt = false ∧
    shouldRefreshBaseToken now (some "") expiresAt = false := by
  constructor <;> simp [shouldRefreshBaseToken, truthyStr]

/-- C5 counterexample: the token `A.eyJleHAiOi0xfQ.B` carries the payload
`{"exp":-1}` — an exp that is not a positive number — yet
`getJwtExpiration` returns −1000 rather than the null the claim
requires. -/
theorem c5_negative_exp_decodes :
    getJwtExpiration "A.eyJleHAiOi0xfQ.B" = some (-1000) ∧
    getJwtExpiration "A.eyJleHAiOi0xfQ.B" ≠ none := by
  decide

/-- C3 counterexample: with the context holding a credential that the
code's own freshness check says needs refresh, the context read returns
the stale credential untouched, performs no exchange-or-refresh call, and
the timeoff list request proceeds with the stale bearer token. -/
theorem c3_stale_credential_used :
    shouldRefreshBaseToken 1700000000000 (some "stale-token") (some 1000) = true ∧
    getBaseAccessTokenFromContext 1700000000000
        (some { userEmail := some "user@example.com", googleAccessToken := some "g" })
        (some { accessToken := some "stale-token", refreshToken := some "refresh",
                expiresAt := some 1000 })
        { success := false } { success := false } =
      ⟨.value (some "stale-token"),
       some { accessToken := some "stale-token", refreshToken := some "refresh",
              expiresAt := some 1000 }, []⟩ ∧
    getTimeoffListAuthStep 1700000000000 none
        (some { userEmail := some "user@example.com", googleAccessToken := some "g" })
        (some { accessToken := some "stale-token", refreshToken := some "refresh",
                expiresAt := some 1000 })
        { success := false } { success := false } = .requestWith "stale-token" := by
  decide

/-- C9 counterexample: with SKIP_ENV_VALIDATION set, startup validation
succeeds although BASE_DOMAIN is absent, and the missing required value
surfaces only at the first downstream call: ssoGoogle's call-time check
of process.env.BASE_DOMAIN returns a runtime failure result instead of
startup having aborted. -/
theorem c9_call_time_domain_check :
    (validateEnv { GOOGLE_CLIENT_ID := some "cid", GOOGLE_CLIENT_SECRET := some "csec",
                   AUTH_SECRET := some "asec", SKIP_ENV_VALIDATION := some "1" }).isOk
      = true ∧
    ssoGoogle none { email := "user@example.com", accessToken := "g" }
        (.err "call never reaches fetch") =
      { success := false,
        error := some "BASE_DOMAIN environment variable is not set" } := by
  decide

/-- C4: with a non-negative clock, the freshness checks report "needs
refresh" exactly when now ≥ expiry − 5 minutes — both for an explicitly
supplied timestamp and for a token that decodes to that expiry; in
particular expiries within five minutes of now report "needs refresh"
and expiries strictly further out report "fresh". -/
theorem c4_freshness_window (now t : Int) (token : String) (hnow : 0 ≤ now) :
    (isExpirationExpired now (some t) = true ↔ now ≥ t - fiveMinutesMs) ∧
    (getJwtExpiration token = some t →
      (isTokenExpired now token = true ↔ now ≥ t - fiveMinutesMs)) := by
  constructor
  · unfold isExpirationExpired
    by_cases h : t = 0
    · subst h
      simp only [if_pos rfl, fiveMinutesMs]
      constructor
      · intro _; omega
      · intro _; rfl
    · simp [h]
  · intro hdec
    unfold isTokenExpired
    rw [hdec]
    by_cases h : t = 0
    · subst h
      simp only [if_pos rfl, fiveMinutesMs]
      constructor
      · intro _; omega
      · intro _; rfl
    · simp [h]

/-- Witness for C4 at a concrete clock, timestamp and token. -/
theorem c4_freshness_window_witness :
    0 ≤ (1700000000000 : Int) ∧
    ((isExpirationExpired 1700000000000 (some 1700000000000) = true ↔
        (1700000000000 : Int) ≥ 1700000000000 - fiveMinutesMs) ∧
      (getJwtExpiration "A.eyJleHAiOjE3MDAwMDAwMDB9.B" = some 1700000000000 →
        (isTokenExpired 1700000000000 "A.eyJleHAiOjE3MDAwMDAwMDB9.B" = true ↔
          (1700000000000 : Int) ≥ 1700000000000 - fiveMinutesMs))) :=
  ⟨by decide, c4_freshness_window 1700000000000 1700000000000
    "A.eyJleHAiOjE3MDAwMDAwMDB9.B" (by decide)⟩

/-- C6: a non-2xx downstream response never yields a success result:
ssoGoogle and refreshToken return tagged failures on every run that
receives such a response, and a FetchClient request propagates an
error. -/
theorem c6_non_2xx_never_success (dom : Option String) (opts : SsoGoogleOptions)
    (ropts : Option RefreshTokenOptions) (resp : HttpResponse)
    (hnok : respOk resp = false) :
    (ssoGoogle dom opts (.ok resp)).success = false ∧
    (refreshToken ropts (.ok resp)).success = false ∧
    fetchClientRequest (.ok resp) =
      .error ("Request failed: " ++ toString resp.status) := by
  refine ⟨?_, ?_, ?_⟩
  · unfold ssoGoogle
    split_ifs <;> simp_all
  · simp only [refreshToken]
    split_ifs <;> simp_all
  · unfold fetchClientRequest
    simp [hnok]

/-- Witness for C6 at a concrete 500 response. -/
theorem c6_non_2xx_never_success_witness :
    respOk ⟨500, .null, "denied"⟩ = false ∧
    ((ssoGoogle (some "https://base.example")
        { email := "user@example.com", accessToken := "g" }
        (.ok ⟨500, .null, "denied"⟩)).success = false ∧
     (refreshToken (some { refreshToken := some "rt" })
        (.ok ⟨500, .null, "denied"⟩)).success = false ∧
     fetchClientRequest (.ok ⟨500, .null, "denied"⟩) =
       .error ("Request failed: " ++ toString (500 : Nat))) :=
  ⟨by decide,
   c6_non_2xx_never_success (some "https://base.example")
     { email := "user@example.com", accessToken := "g" }
     (some { refreshToken := some "rt" }) ⟨500, .null, "denied"⟩ (by decide)⟩

/-- C7: a base-valid payload whose messageType has no registered handler
makes the route answer HTTP 400 with the typed no-handler message; with
no handler registered under the tag, none can run. -/
theorem c7_unregistered_tag_rejected (b : Json) (tag : String)
    (hparse : baseWebhookSafeParse b = some ⟨tag⟩)
    (hnone : lookupHandler registeredHandlers tag = none) :
    webhookPOST registeredHandlers (some b) =
      ⟨400, .obj [("success", .bool false),
                  ("message", .str ("No handler registered for messageType: " ++ tag))]⟩ := by
  simp only [webhookPOST, dispatchWebhook, hparse, hnone, HandlerResult.toJson,
    webhookResponseOk, Json.getField, List.lookup]
  rfl

/-- Witness for C7 at the unregistered tag "nope". -/
theorem c7_unregistered_tag_rejected_witness :
    baseWebhookSafeParse (.obj [("messageType", .str "nope")]) = some ⟨"nope"⟩ ∧
    lookupHandler registeredHandlers "nope" = none ∧
    webhookPOST registeredHandlers (some (.obj [("messageType", .str "nope")])) =
      ⟨400, .obj [("success", .bool false),
                  ("message", .str "No handler registered for messageType: nope")]⟩ :=
  ⟨rfl, rfl,
   c7_unregistered_tag_rejected (.obj [("messageType", .str "nope")]) "nope" rfl rfl⟩

/-- C8: when context tokens exist and need refresh, a successful
refreshBaseToken run rotates the stored tokens to exactly the new result
with exactly one refresh call; a failed refresh run falls back to exactly
one fresh exchange after the one refresh attempt. -/
theorem c8_refresh_rotates_or_falls_back (now : Int) (s : EnsureSessionView)
    (existing : BaseTokens) (refreshResult authResult : BaseAuthResult)
    (hemail : truthyStr s.userEmail = true)
    (hgoogle : truthyStr s.googleAccessToken = true)
    (hat : truthyStr existing.accessToken = true)
    (hrt : truthyStr existing.refreshToken = true)
    (href : shouldRefreshBaseToken now existing.accessToken existing.expiresAt = true) :
    ((refreshResult.success = true ∧ truthyStr refreshResult.accessToken = true) →
      ensureBaseAuth now (some s) (some existing) refreshResult authResult =
        ⟨.token (refreshResult.accessToken.getD ""),
         some ⟨refreshResult.accessToken, refreshResult.refreshToken,
               refreshResult.expiresAt⟩,
         [.refresh]⟩) ∧
    (¬ (refreshResult.success = true ∧ truthyStr refreshResult.accessToken = true) →
      (ensureBaseAuth now (some s) (some existing) refreshResult authResult).calls =
        [.refresh, .exchange]) := by
  constructor
  · intro hok
    simp [ensureBaseAuth, hemail, hgoogle, hat, hrt, href, hok.1, hok.2]
  · intro hfail
    by_cases ha : authResult.success = true ∧ truthyStr authResult.accessToken = true
    · simp [ensureBaseAuth, hemail, hgoogle, hat, hrt, href, hfail, ha.1, ha.2]
    · simp only [ensureBaseAuth, hemail, hgoogle, hat, hrt, href]
      simp [hfail, ha]

/-- Witness for C8 at a concrete stale context and successful refresh. -/
theorem c8_refresh_rotates_or_falls_back_witness :
    shouldRefreshBaseToken 1700000000000 (some "stale-token") (some 1000) = true ∧
    ensureBaseAuth 1700000000000
        (some { userEmail := some "user@example.com", googleAccessToken := some "g" })
        (some { accessToken := some "stale-token", refreshToken := some "old-rt",
                expiresAt := some 1000 })
        { success := true, accessToken := some "new-at", refreshToken := some "new-rt",
          expiresAt := some 1800000000000 }
        { success := false } =
      ⟨.token "new-at",
       some { accessToken := some "new-at", refreshToken := some "new-rt",
              expiresAt := some 1800000000000 },
       [.refresh]⟩ :=
  ⟨by decide,
   (c8_refresh_rotates_or_falls_back 1700000000000
     { userEmail := some "user@example.com", googleAccessToken := some "g" }
     { accessToken := some "stale-token", refreshToken := some "old-rt",
       expiresAt := some 1000 }
     { success := true, accessToken := some "new-at", refreshToken := some "new-rt",
       expiresAt := some 1800000000000 }
     { success := false }
     (by decide) (by decide) (by decide) (by decide) (by decide)).1
    ⟨rfl, by decide⟩⟩

/-- Whether the request context holds a truthy access token
(`!!tokens?.accessToken`). -/
def ctxHasToken : Option BaseTokens → Bool
  | some t => truthyStr t.accessToken
  | none => false

/-- With no truthy access token in the context, every ensureBaseAuth run
either redirects or returns a token obtained by exactly one fresh
exchange. -/
theorem ensureBaseAuth_no_ctx_token (now : Int) (session : Option EnsureSessionView)
    (ctx : Option BaseTokens) (refreshResult authResult : BaseAuthResult)
    (h : ctxHasToken ctx = false) :
    (∃ u, (ensureBaseAuth now session ctx refreshResult authResult).outcome = .redirect u) ∨
    (∃ t, (ensureBaseAuth now session ctx refreshResult authResult).outcome = .token t ∧
          (ensureBaseAuth now session ctx refreshResult authResult).calls = [.exchange]) := by
  cases session with
  | none => exact .inl ⟨"/sign-in", rfl⟩
  | some s =>
    by_cases he : truthyStr s.userEmail = true
    case neg => exact .inl ⟨"/sign-in", by simp [ensureBaseAuth, he]⟩
    by_cases hg : truthyStr s.googleAccessToken = true
    case neg =>
      exact .inl ⟨"/sign-in?error=missing_google_token", by simp [ensureBaseAuth, he, hg]⟩
    by_cases ha : authResult.success = true ∧ truthyStr authResult.accessToken = true
    · right
      refine ⟨authResult.accessToken.getD "", ?_, ?_⟩ <;>
      · cases ctx with
        | none => simp [ensureBaseAuth, he, hg, ha.1, ha.2]
        | some t =>
          have htok : truthyStr t.accessToken = false := by
            simpa [ctxHasToken] using h
          simp [ensureBaseAuth, he, hg, htok, ha.1, ha.2]
    · left
      refine ⟨"/sign-in?error=base_access_denied", ?_⟩
      cases ctx with
      | none => simp [ensureBaseAuth, he, hg, ha]
      | some t =>
        have htok : truthyStr t.accessToken = false := by
          simpa [ctxHasToken] using h
        simp [ensureBaseAuth, he, hg, htok, ha]

/-- C3 amended: the read path of the request context re-runs the
exchange, or fails closed with a redirect, only when the credential is
absent; a present credential is returned as-is with no downstream call
and no freshness check, even when stale. -/
theorem c3_context_read_behavior (now : Int) (session : Option EnsureSessionView)
    (ctx : Option BaseTokens) (refreshResult authResult : BaseAuthResult) :
    (ctxHasToken ctx = false →
      (∃ u, (getBaseAccessTokenFromContext now session ctx refreshResult authResult).outcome
          = .redirect u) ∨
      (∃ t, (getBaseAccessTokenFromContext now session ctx refreshResult authResult).outcome
          = .value (some t) ∧
        (getBaseAccessTokenFromContext now session ctx refreshResult authResult).calls
          = [.exchange])) ∧
    (∀ t : BaseTokens, ctx = some t → truthyStr t.accessToken = true →
      getBaseAccessTokenFromContext now session ctx refreshResult authResult =
        ⟨.value t.accessToken, some t, []⟩) := by
  constructor
  · intro habs
    rcases ensureBaseAuth_no_ctx_token now session ctx refreshResult authResult habs with
      ⟨u, hu⟩ | ⟨t, ht, hc⟩
    · left
      refine ⟨u, ?_⟩
      cases ctx with
      | none => simp [getBaseAccessTokenFromContext, hu]
      | some tk =>
        have htok : truthyStr tk.accessToken = false := by
          simpa [ctxHasToken] using habs
        simp [getBaseAccessTokenFromContext, htok, hu]
    · right
      refine ⟨t, ?_, ?_⟩ <;>
      · cases ctx with
        | none => simp [getBaseAccessTokenFromContext, ht, hc]
        | some tk =>
          have htok : truthyStr tk.accessToken = false := by
            simpa [ctxHasToken] using habs
          simp [getBaseAccessTokenFromContext, htok, ht, hc]
  · intro t ht htr
    subst ht
    simp [getBaseAccessTokenFromContext, htr]

/-- Witness for C3 amended: an empty context leads to a redirect or one
fresh exchange; a context holding a token returns it untouched. -/
theorem c3_context_read_behavior_witness :
    ctxHasToken none = false ∧
    ((∃ u, (getBaseAccessTokenFromContext 0 none none { success := false }
        { success := false }).outcome = .redirect u) ∨
     (∃ t, (getBaseAccessTokenFromContext 0 none none { success := false }
        { success := false }).outcome = .value (some t) ∧
       (getBaseAccessTokenFromContext 0 none none { success := false }
        { success := false }).calls = [.exchange])) ∧
    getBaseAccessTokenFromContext 0 none (some { accessToken := some "tok" })
        { success := false } { success := false } =
      ⟨.value (some "tok"), some { accessToken := some "tok" }, []⟩ :=
  ⟨rfl,
   (c3_context_read_behavior 0 none none { success := false } { success := false }).1 rfl,
   (c3_context_read_behavior 0 none (some { accessToken := some "tok" })
     { success := false } { success := false }).2
     { accessToken := some "tok" } rfl (by decide)⟩

/-- C5 amended: decoding is fail-safe in all undecodable cases — an
undecodable token reports "needs refresh"; a wrong segment count, an
empty middle segment, an unparsable middle segment, and a payload whose
exp is absent, non-numeric, or the falsy number zero all decode to null —
but a payload whose exp is any non-zero number decodes to exp·1000, so a
negative exp yields a non-null negative expiry rather than null; the
freshness check still reports "needs refresh" there for every
non-negative clock. -/
theorem c5_fail_safe_decoding (now : Int) (token p0 p1 p2 : String) :
    (getJwtExpiration token = none → isTokenExpired now token = true) ∧
    ((splitOnChar '.' token).length ≠ 3 → getJwtExpiration token = none) ∧
    jwtExpirationOfParts [p0, "", p2] = none ∧
    (jsonParse (decodeBase64Segment p1) = none →
      jwtExpirationOfParts [p0, p1, p2] = none) ∧
    (∀ payload, jsonParse (decodeBase64Segment p1) = some payload →
      (payload.getField "exp" = none → jwtExpirationOfParts [p0, p1, p2] = none) ∧
      (∀ v, payload.getField "exp" = some v → (∀ e : Int, v ≠ .num e) →
        jwtExpirationOfParts [p0, p1, p2] = none) ∧
      (payload.getField "exp" = some (.num 0) →
        jwtExpirationOfParts [p0, p1, p2] = none) ∧
      (∀ e : Int, payload.getField "exp" = some (.num e) → e ≠ 0 →
        jwtExpirationOfParts [p0, p1, p2] = some (e * 1000))) ∧
    (0 ≤ now → ∀ e : Int, getJwtExpiration token = some e → e < 0 →
      isTokenExpired now token = true) := by
  refine ⟨?_, ?_, ?_, ?_, ?_, ?_⟩
  · intro h
    unfold isTokenExpired
    rw [h]
  · intro hlen
    unfold getJwtExpiration
    rcases hsp : splitOnChar '.' token with _ | ⟨a, _ | ⟨b, _ | ⟨c, _ | ⟨d, rest⟩⟩⟩⟩ <;>
      simp_all [jwtExpirationOfParts]
  · simp [jwtExpirationOfParts]
  · intro hp
    by_cases h1 : p1 = ""
    · simp [jwtExpirationOfParts, h1]
    · simp [jwtExpirationOfParts, h1, hp]
  · intro payload hpay
    by_cases h1 : p1 = ""
    · exfalso
      rw [h1] at hpay
      have hnone : jsonParse (decodeBase64Segment "") = none := rfl
      rw [hnone] at hpay
      exact Option.noConfusion hpay
    · refine ⟨?_, ?_, ?_, ?_⟩
      · intro hexp
        simp [jwtExpirationOfParts, h1, hpay, hexp]
      · intro v hv hnum
        cases v with
        | num e => exact absurd rfl (hnum e)
        | null => simp [jwtExpirationOfParts, h1, hpay, hv]
        | bool b => simp [jwtExpirationOfParts, h1, hpay, hv]
        | str sv => simp [jwtExpirationOfParts, h1, hpay, hv]
        | arr xs => simp [jwtExpirationOfParts, h1, hpay, hv]
        | obj fs => simp [jwtExpirationOfParts, h1, hpay, hv]
      · intro hexp
        simp [jwtExpirationOfParts, h1, hpay, hexp]
      · intro e he hne
        simp [jwtExpirationOfParts, h1, hpay, he, hne]
  · intro hnow e hdec hneg
    unfold isTokenExpired
    rw [hdec]
    show (if e = 0 then true else decide (now ≥ e - fiveMinutesMs)) = true
    rw [if_neg (by omega)]
    simp only [decide_eq_true_eq, fiveMinutesMs]
    omega

/-- Witness for C5 amended at an undecodable token and the negative-exp
payload segment. -/
theorem c5_fail_safe_decoding_witness :
    getJwtExpiration "not-a-jwt" = none ∧
    isTokenExpired 0 "not-a-jwt" = true ∧
    jwtExpirationOfParts ["A", "eyJleHAiOi0xfQ", "B"] = some (-1000) :=
  ⟨rfl,
   (c5_fail_safe_decoding 0 "not-a-jwt" "A" "eyJleHAiOi0xfQ" "B").1 rfl,
   ((c5_fail_safe_decoding 0 "not-a-jwt" "A" "eyJleHAiOi0xfQ" "B").2.2.2.2.1
     (.obj [("exp", .num (-1))]) rfl).2.2.2 (-1) rfl (by decide)⟩

/-- C9 amended: with SKIP_ENV_VALIDATION unset, any missing-or-empty
required value makes the module-load validation fail, aborting startup;
independently, ssoGoogle checks BASE_DOMAIN — read from process.env at
call time — and returns a runtime failure result whenever it is absent
or empty, which is reachable when validation is skipped. -/
theorem c9_eager_validation_and_call_time_check (p : ProcessEnv)
    (opts : SsoGoogleOptions) (fetch : FetchOutcome) (dom : Option String)
    (hskip : truthyStr p.SKIP_ENV_VALIDATION = false)
    (hmiss : normEnvVal p.GOOGLE_CLIENT_ID = none ∨
             normEnvVal p.GOOGLE_CLIENT_SECRET = none ∨
             normEnvVal p.AUTH_SECRET = none ∨
             normEnvVal p.BASE_DOMAIN = none)
    (hopts : ssoGoogleOptionsValid opts = true)
    (hdom : truthyStr dom = false) :
    (∃ e, validateEnv p = .error e) ∧
    ssoGoogle dom opts fetch =
      { success := false,
        error := some "BASE_DOMAIN environment variable is not set" } := by
  constructor
  · unfold validateEnv
    rw [if_neg (by simp [hskip])]
    rcases h1 : normEnvVal p.GOOGLE_CLIENT_ID with _ | cid <;>
    rcases h2 : normEnvVal p.GOOGLE_CLIENT_SECRET with _ | csec <;>
    rcases h3 : normEnvVal p.AUTH_SECRET with _ | asec <;>
    rcases h4 : normEnvVal p.BASE_DOMAIN with _ | dm <;>
      simp_all
  · unfold ssoGoogle
    rw [if_neg (by simp [hopts]), if_pos (by simp [hdom])]

/-- Witness for C9 amended at an entirely empty environment. -/
theorem c9_eager_validation_and_call_time_check_witness :
    truthyStr (ProcessEnv.SKIP_ENV_VALIDATION {}) = false ∧
    normEnvVal (ProcessEnv.GOOGLE_CLIENT_ID {}) = none ∧
    ssoGoogleOptionsValid { email := "user@example.com", accessToken := "g" } = true ∧
    ((∃ e, validateEnv {} = .error e) ∧
     ssoGoogle none { email := "user@example.com", accessToken := "g" }
        (.err "unreached") =
      { success := false,
        error := some "BASE_DOMAIN environment variable is not set" }) :=
  ⟨rfl, rfl, by decide,
   c9_eager_validation_and_call_time_check {}
     { email := "user@example.com", accessToken := "g" } (.err "unreached") none
     rfl (.inl rfl) (by decide) rfl⟩

end EA
